import Mathlib

/-!
Shallow embedding of the spair UI engine core, translated from the
repository sources:
  * src/component.rs   — update queue, component instances, callback execution
  * src/dom/attributes.rs — positional attribute cache and attribute setters
  * src/dom/keyed_list.rs — keyed list state
  * src/dom/nodes.rs   — grouped (fragment) nodes

Rust panics (`panic` / `expect_throw` / `unwrap_throw`) are modelled by
returning `none` from an `Option`-valued function; a normal return is `some`.
The `f64` attribute values are modelled as rationals with the machine-epsilon
comparison used by the source (`|new - old| < EPSILON`); the structural
behaviour of the cache (store / skip / replace) is independent of float
rounding.  DOM handles (`web_sys` nodes, listeners) carry no observable state
in the reconciler logic, so listeners are represented by opaque numeric ids
and DOM writes by the boolean "must write" results the source returns.
-/

namespace Spair

/-! ### Update queue (src/component.rs, `UpdateQueue`) -/

/-- `UpdateQueue` from src/component.rs: the process-wide deferred-update
state, one re-entrancy flag `will_be_executed` plus a FIFO `queue` of
deferred closures.  The closures are opaque; they are modelled by an
arbitrary task type `τ`. -/
structure UpdateQueue (τ : Type) where
  will_be_executed : Bool
  queue : List τ
deriving DecidableEq

/-- `UpdateQueue::add`: `self.queue.borrow_mut().push_back(f)`. -/
def UpdateQueue.add (uq : UpdateQueue τ) (f : τ) : UpdateQueue τ :=
  { uq with queue := uq.queue ++ [f] }

/-- `UpdateQueue::take`: `self.queue.borrow_mut().pop_front()`. -/
def UpdateQueue.take (uq : UpdateQueue τ) : Option τ × UpdateQueue τ :=
  match uq.queue with
  | [] => (none, uq)
  | f :: rest => (some f, { uq with queue := rest })

/-- `i_have_to_execute_update_queue` from src/component.rs: if the flag is
`false` the caller becomes the owner (the flag is set and `true` is
returned); otherwise the caller is told `false` and nothing changes. -/
def i_have_to_execute_update_queue (uq : UpdateQueue τ) : Bool × UpdateQueue τ :=
  match uq.will_be_executed with
  | false => (true, { uq with will_be_executed := true })
  | true => (false, uq)

/-- `update_component` from src/component.rs: enqueue a deferred action on
the process-wide queue (`UPDATE_QUEUE.with(|uq| uq.add(..))`). -/
def update_component (uq : UpdateQueue τ) (fn_update : τ) : UpdateQueue τ :=
  uq.add fn_update

/-- The drain loop of `UpdateQueue::execute`
(`while let Some(f) = self.take() { f(); }`): repeatedly pop the front task
and run it.  Running a task `f` may itself enqueue further tasks; `eff f`
lists the tasks `f` enqueues, in enqueue order, and they are pushed at the
back of the queue while `f` is the currently-draining item.  `fuel` bounds
the number of loop iterations: `none` models a drain that has not finished
within `fuel` steps (the Rust loop simply keeps running).  On success the
result is the list of executed tasks in execution order. -/
def drainFuel (eff : τ → List τ) : Nat → List τ → Option (List τ)
  | _, [] => some []
  | 0, _ :: _ => none
  | fuel + 1, f :: rest => (drainFuel eff fuel (rest ++ eff f)).map (fun ex => f :: ex)

/-- `UpdateQueue::execute`: drain the queue until it is empty, then clear
the `will_be_executed` flag.  The executed tasks are returned for
specification purposes. -/
def UpdateQueue.execute (eff : τ → List τ) (fuel : Nat) (uq : UpdateQueue τ) :
    Option (List τ × UpdateQueue τ) :=
  (drainFuel eff fuel uq.queue).map (fun ex => (ex, ⟨false, []⟩))

/-- `execute_update_queue(promise)` from src/component.rs: a no-op unless
the caller owns the promise, in which case the queue is executed. -/
def execute_update_queue (eff : τ → List τ) (fuel : Nat) (promise : Bool)
    (uq : UpdateQueue τ) : Option (List τ × UpdateQueue τ) :=
  if promise then uq.execute eff fuel else some ([], uq)

/-! ### Component instances (src/component.rs, `CompInstance`, `Comp`) -/

/-- `MountStatus` from src/component.rs. -/
inductive MountStatus where
  | Never
  | Mounted
  | Unmounted
  | PermanentlyMounted
deriving DecidableEq

/-- The observable part of `CompInstance<C>` from src/component.rs: the owned
state (absent until initialization completes) and the lifecycle flag.  The
root element and the registered window listeners are DOM handles with no
bearing on the scheduler claims. -/
structure CompInstance (σ : Type) where
  state : Option σ
  mount_status : MountStatus
deriving DecidableEq

/-- The world a `Comp<C>` handle (a `Weak<RefCell<CompInstance<C>>>`)
operates in: the process-wide update queue, whether the weak handle still
upgrades (`alive`), whether the `RefCell` is currently mutably borrowed by a
caller further up the stack (`borrowed`), and the instance contents. -/
structure CompWorld (σ τ : Type) where
  uq : UpdateQueue τ
  alive : Bool
  borrowed : Bool
  inst : CompInstance σ
deriving DecidableEq

/-- `Comp::set_mount_status_to_unmounted` from src/component.rs:
`if let Some(instance) = self.0.upgrade()` then
`if let Ok(mut instance) = instance.try_borrow_mut()` then set the status;
both failure paths fall through silently. -/
def Comp.set_mount_status_to_unmounted (w : CompWorld σ τ) : CompWorld σ τ :=
  if w.alive then
    if w.borrowed then w
    else { w with inst := { w.inst with mount_status := MountStatus.Unmounted } }
  else w

/-- Modelled from the spec: `ExecuteCallback::queue` lives in src/callback.rs,
which is not among the provided sources.  Per the spec (§4.1 step 2), a
rejected access captures the component handle, the mutator and its argument
as a zero-argument closure and pushes it onto the process-wide FIFO via
`update_component`.  The captured closure is represented by `queueTask arg`,
an injection of the argument into the opaque task type. -/
def callback_queue (queueTask : A → τ) (uq : UpdateQueue τ) (arg : A) : UpdateQueue τ :=
  update_component uq (queueTask arg)

/-- `Comp::execute_callback` from src/component.rs.  Control flow, in source
order:
1. take the promise via `i_have_to_execute_update_queue`;
2. upgrade the weak handle — a dead handle hits
   `expect_throw("Expect the component instance alive when updating - update()")`,
   modelled as `none`;
3. `try_borrow_mut` — on failure, `callback.queue(arg)` pushes the captured
   closure onto the FIFO and the function returns at once (note: before
   `execute_update_queue` is reached);
4. on success, `C::reset` then `callback.execute(state, arg)` run against the
   owned state (`unwrap_throw` on an absent state is `none`), followed by
   `extra_update`;  `reset` and `exec` are the user-supplied mutators, and
   `exec` also covers the state effect of the checklist commands that
   `extra_update` executes (rendering touches only the DOM);
5. finally `execute_update_queue(promise)` drains the FIFO if this call owns
   the promise. -/
def Comp.execute_callback (reset : σ → σ) (exec : σ → A → σ) (queueTask : A → τ)
    (eff : τ → List τ) (fuel : Nat) (arg : A) (w : CompWorld σ τ) :
    Option (CompWorld σ τ) :=
  let pr := i_have_to_execute_update_queue w.uq
  let promise := pr.1
  let uq1 := pr.2
  if w.alive = false then
    none
  else if w.borrowed then
    some { w with uq := callback_queue queueTask uq1 arg }
  else
    match w.inst.state with
    | none => none
    | some s =>
      let s' := exec (reset s) arg
      match execute_update_queue eff fuel promise uq1 with
      | none => none
      | some (_, uq2) =>
        some { w with uq := uq2, inst := { w.inst with state := some s' } }

/-! ### Attribute cache (src/dom/attributes.rs, `Attribute`, `AttributeList`) -/

/-- `Attribute` from src/dom/attributes.rs: the tagged per-position record.
Listeners are opaque boxed closures, represented by a numeric id; `f64`
values are represented by rationals (see the header comment). -/
inductive Attribute where
  | EventListener (listener : Nat)
  | String (value : String)
  | Bool (value : Bool)
  | I32 (value : Int)
  | U32 (value : Nat)
  | F64 (value : Rat)
deriving DecidableEq

/-- `std::f64::EPSILON`, the machine epsilon `2^-52` used by
`AttributeList::check_f64_attribute`. -/
def f64_EPSILON : Rat := 1 / 2 ^ 52

/-- `f64::abs` on the rational model of f64 (an executable form of `|x|`,
see `f64_abs_eq_abs`). -/
def f64_abs (x : Rat) : Rat := if x < 0 then -x else x

/-- `AttributeList::store_listener`: overwrite in place when the position
exists, push otherwise. -/
def AttributeList.store_listener (l : List Attribute) (index : Nat) (listener : Nat) :
    List Attribute :=
  if index < l.length then l.set index (Attribute.EventListener listener)
  else l ++ [Attribute.EventListener listener]

/-- `AttributeList::check_bool_attribute`: `None` (position not yet in the
cache) pushes the value and reports a required DOM write; an equal stored
`Bool` reports no write; an unequal stored `Bool` is replaced with a write
reported; any other stored variant panics ("Why not an Attribute::Bool?"),
modelled as `none`. -/
def AttributeList.check_bool_attribute (l : List Attribute) (index : Nat) (value : Bool) :
    Option (Bool × List Attribute) :=
  match l[index]? with
  | none => some (true, l ++ [Attribute.Bool value])
  | some (Attribute.Bool old_value) =>
    if value = old_value then some (false, l)
    else some (true, l.set index (Attribute.Bool value))
  | some _ => none

/-- `AttributeList::check_i32_attribute` (same shape as the bool check). -/
def AttributeList.check_i32_attribute (l : List Attribute) (index : Nat) (value : Int) :
    Option (Bool × List Attribute) :=
  match l[index]? with
  | none => some (true, l ++ [Attribute.I32 value])
  | some (Attribute.I32 old_value) =>
    if value = old_value then some (false, l)
    else some (true, l.set index (Attribute.I32 value))
  | some _ => none

/-- `AttributeList::check_u32_attribute` (same shape as the bool check). -/
def AttributeList.check_u32_attribute (l : List Attribute) (index : Nat) (value : Nat) :
    Option (Bool × List Attribute) :=
  match l[index]? with
  | none => some (true, l ++ [Attribute.U32 value])
  | some (Attribute.U32 old_value) =>
    if value = old_value then some (false, l)
    else some (true, l.set index (Attribute.U32 value))
  | some _ => none

/-- `AttributeList::check_f64_attribute`: the skip test is
`(value - *old_value).abs() < std::f64::EPSILON`. -/
def AttributeList.check_f64_attribute (l : List Attribute) (index : Nat) (value : Rat) :
    Option (Bool × List Attribute) :=
  match l[index]? with
  | none => some (true, l ++ [Attribute.F64 value])
  | some (Attribute.F64 old_value) =>
    if f64_abs (value - old_value) < f64_EPSILON then some (false, l)
    else some (true, l.set index (Attribute.F64 value))
  | some _ => none

/-- `AttributeList::check_str_attribute` (same shape as the bool check;
the stored string is replaced by `value.to_string()`). -/
def AttributeList.check_str_attribute (l : List Attribute) (index : Nat) (value : String) :
    Option (Bool × List Attribute) :=
  match l[index]? with
  | none => some (true, l ++ [Attribute.String value])
  | some (Attribute.String old_value) =>
    if value = old_value then some (false, l)
    else some (true, l.set index (Attribute.String value))
  | some _ => none

/-- A typed value offered to the cache: the argument of one
`check_*_attribute` call, tagged with which of the five checks it goes to. -/
inductive AttrValue where
  | VBool (value : Bool)
  | VStr (value : String)
  | VI32 (value : Int)
  | VU32 (value : Nat)
  | VF64 (value : Rat)
deriving DecidableEq

/-- The `Attribute` record that a first write of this value pushes. -/
def AttrValue.store : AttrValue → Attribute
  | .VBool b => Attribute.Bool b
  | .VStr s => Attribute.String s
  | .VI32 n => Attribute.I32 n
  | .VU32 n => Attribute.U32 n
  | .VF64 x => Attribute.F64 x

/-- Whether a stored record is the variant the check for this value
expects; a mismatch makes every check panic. -/
def AttrValue.matchesStored : AttrValue → Attribute → Bool
  | .VBool _, Attribute.Bool _ => true
  | .VStr _, Attribute.String _ => true
  | .VI32 _, Attribute.I32 _ => true
  | .VU32 _, Attribute.U32 _ => true
  | .VF64 _, Attribute.F64 _ => true
  | _, _ => false

/-- The per-type "no DOM write needed" comparison of the source: exact
equality for bool, i32, u32 and string, absolute difference below machine
epsilon for f64. -/
def AttrValue.skips : AttrValue → Attribute → Bool
  | .VBool v, Attribute.Bool old => v = old
  | .VStr v, Attribute.String old => v = old
  | .VI32 v, Attribute.I32 old => v = old
  | .VU32 v, Attribute.U32 old => v = old
  | .VF64 v, Attribute.F64 old => f64_abs (v - old) < f64_EPSILON
  | _, _ => false

/-- Dispatch a typed value to the corresponding `check_*_attribute`. -/
def AttributeList.check (l : List Attribute) (index : Nat) :
    AttrValue → Option (Bool × List Attribute)
  | .VBool v => AttributeList.check_bool_attribute l index v
  | .VStr v => AttributeList.check_str_attribute l index v
  | .VI32 v => AttributeList.check_i32_attribute l index v
  | .VU32 v => AttributeList.check_u32_attribute l index v
  | .VF64 v => AttributeList.check_f64_attribute l index v

/-- One render pass over an element's value attributes: the checks run in
declaration order at consecutive cache positions (the `Attributes` setter
bumps `extra.index` after each check).  Returns the reported
"must write to the DOM" flags and the final cache. -/
def AttributeList.runChecks :
    List AttrValue → List Attribute → Nat → Option (List Bool × List Attribute)
  | [], l, _ => some ([], l)
  | v :: vs, l, index =>
    match AttributeList.check l index v with
    | none => none
    | some (r, l₁) =>
      match AttributeList.runChecks vs l₁ (index + 1) with
      | none => none
      | some (rs, l₂) => some (r :: rs, l₂)

/-! ### Element updater state and attribute setters (src/dom/attributes.rs) -/

/-- `ElementStatus` from src/dom: how the element being rendered came to be
in this pass. -/
inductive ElementStatus where
  | JustCreated
  | Existing
  | JustCloned
deriving DecidableEq

/-- The fields of the `ElementUpdater` that the attribute setters in
src/dom/attributes.rs read and write: the element's attribute cache
(`self.0.element.attributes`), the running position (`self.0.extra.index`),
the element's status (`self.0.extra.status`) and the deferred
`<select>`-value (`self.0.select_value`). -/
structure ElementUpdaterState where
  attributes : List Attribute
  index : Nat
  status : ElementStatus
  select_value : Option String
deriving DecidableEq

/-- `sealed::AttributeSetter::require_set_listener` for
`StaticAttributes`: on an `Existing` element the listener is not set but
the index is advanced "to count over the static events"; otherwise (created
or cloned) the listener must be set because events are not cloned. -/
def StaticAttributes.require_set_listener (u : ElementUpdaterState) :
    Bool × ElementUpdaterState :=
  if u.status = ElementStatus.Existing then
    (false, { u with index := u.index + 1 })
  else
    (true, u)

/-- `sealed::AttributeSetter::store_listener` for `StaticAttributes`:
store at the current position, then advance the position. -/
def StaticAttributes.store_listener (u : ElementUpdaterState) (listener : Nat) :
    ElementUpdaterState :=
  { u with
    attributes := AttributeList.store_listener u.attributes u.index listener
    index := u.index + 1 }

/-- `sealed::AttributeSetter::require_set_listener` for `Attributes`
(the non-static setter): always `true`. -/
def Attributes.require_set_listener (u : ElementUpdaterState) :
    Bool × ElementUpdaterState :=
  (true, u)

/-- `sealed::AttributeSetter::store_listener` for `Attributes` (identical
body to the static one). -/
def Attributes.store_listener (u : ElementUpdaterState) (listener : Nat) :
    ElementUpdaterState :=
  { u with
    attributes := AttributeList.store_listener u.attributes u.index listener
    index := u.index + 1 }

/-- An event method generated by `create_methods_for_events` on the static
setter: `if self.require_set_listener() { self.store_listener(on(f, ..)) }`. -/
def StaticAttributes.on_event (listener : Nat) (u : ElementUpdaterState) :
    ElementUpdaterState :=
  let r := StaticAttributes.require_set_listener u
  if r.1 then StaticAttributes.store_listener r.2 listener else r.2

/-- An event method generated by `create_methods_for_events` on the
non-static setter. -/
def Attributes.on_event (listener : Nat) (u : ElementUpdaterState) :
    ElementUpdaterState :=
  let r := Attributes.require_set_listener u
  if r.1 then Attributes.store_listener r.2 listener else r.2

/-- `sealed::AttributeSetter::check_bool_attribute` for `StaticAttributes`:
report a write exactly on `JustCreated`; nothing is stored and the index is
not advanced ("no need to store the value for static attributes"). -/
def StaticAttributes.check_bool_attribute (u : ElementUpdaterState) (_value : Bool) :
    Bool × ElementUpdaterState :=
  (decide (u.status = ElementStatus.JustCreated), u)

/-- `check_str_attribute` for `StaticAttributes`. -/
def StaticAttributes.check_str_attribute (u : ElementUpdaterState) (_value : String) :
    Bool × ElementUpdaterState :=
  (decide (u.status = ElementStatus.JustCreated), u)

/-- `check_i32_attribute` for `StaticAttributes`. -/
def StaticAttributes.check_i32_attribute (u : ElementUpdaterState) (_value : Int) :
    Bool × ElementUpdaterState :=
  (decide (u.status = ElementStatus.JustCreated), u)

/-- `check_u32_attribute` for `StaticAttributes`. -/
def StaticAttributes.check_u32_attribute (u : ElementUpdaterState) (_value : Nat) :
    Bool × ElementUpdaterState :=
  (decide (u.status = ElementStatus.JustCreated), u)

/-- `check_f64_attribute` for `StaticAttributes`. -/
def StaticAttributes.check_f64_attribute (u : ElementUpdaterState) (_value : Rat) :
    Bool × ElementUpdaterState :=
  (decide (u.status = ElementStatus.JustCreated), u)

/-- `sealed::AttributeSetter::check_bool_attribute` for `Attributes`: call
the cache check at the current position, then advance the position (also on
a reported-no-write result, so later attributes stay aligned). -/
def Attributes.check_bool_attribute (u : ElementUpdaterState) (value : Bool) :
    Option (Bool × ElementUpdaterState) :=
  (AttributeList.check_bool_attribute u.attributes u.index value).map
    (fun p => (p.1, { u with attributes := p.2, index := u.index + 1 }))

/-- `check_str_attribute` for `Attributes`. -/
def Attributes.check_str_attribute (u : ElementUpdaterState) (value : String) :
    Option (Bool × ElementUpdaterState) :=
  (AttributeList.check_str_attribute u.attributes u.index value).map
    (fun p => (p.1, { u with attributes := p.2, index := u.index + 1 }))

/-- `check_f64_attribute` for `Attributes`. -/
def Attributes.check_f64_attribute (u : ElementUpdaterState) (value : Rat) :
    Option (Bool × ElementUpdaterState) :=
  (AttributeList.check_f64_attribute u.attributes u.index value).map
    (fun p => (p.1, { u with attributes := p.2, index := u.index + 1 }))

/-! ### Grouped nodes (src/dom/nodes.rs, `GroupedNodes`) -/

/-- `GroupedNodes` from src/dom/nodes.rs: a fragment boundary with the index
of the currently active match arm and the nested node store.  The nested
nodes are opaque to the claims (`ν`); the end-flag comment node carries no
state. -/
structure GroupedNodes (ν : Type) where
  active_index : Option Nat
  nodes : List ν
deriving DecidableEq

/-- `GroupedNodes::set_active_index`: a different (or absent) active index
clears the nested nodes from the parent and records the new index, reporting
`JustCreated`; the same index is a no-op reporting `Existing`. -/
def GroupedNodes.set_active_index (gn : GroupedNodes ν) (index : Nat) :
    ElementStatus × GroupedNodes ν :=
  if some index ≠ gn.active_index then
    (ElementStatus.JustCreated, { gn with nodes := [], active_index := some index })
  else
    (ElementStatus.Existing, gn)

/-! ### Keyed list (src/dom/keyed_list.rs, `KeyedList`) -/

/-- `ListItemKey` from src/dom/keyed_list.rs: the closed union of key types.
Sizes do not matter for the claims; the UUID is opaque. -/
inductive ListItemKey where
  | String (value : String)
  | ISize (value : Int)
  | USize (value : Nat)
  | I64 (value : Int)
  | U64 (value : Nat)
  | I32 (value : Int)
  | U32 (value : Nat)
  | Uuid (value : Nat)
deriving DecidableEq

/-- `KeyedElement` from src/dom/keyed_list.rs; the element is opaque (`ε`). -/
structure KeyedElement (ε : Type) where
  key : ListItemKey
  element : ε
deriving DecidableEq

/-- `ListItemTemplate` from src/dom/keyed_list.rs. -/
structure ListItemTemplate (ε : Type) where
  rendered : Bool
  element : ε
deriving DecidableEq

/-- `OldElement` from src/dom/keyed_list.rs. -/
structure OldElement (ε : Type) where
  index : Nat
  element : ε
deriving DecidableEq

/-- `KeyedList` from src/dom/keyed_list.rs.  The `HashMap` is modelled as an
association list (its ordering is irrelevant to the claims). -/
structure KeyedList (ε : Type) where
  active : List (Option (KeyedElement ε))
  buffer : List (Option (KeyedElement ε))
  template : Option (ListItemTemplate ε)
  old_elements_map : List (ListItemKey × OldElement ε)
deriving DecidableEq

/-- `impl Clone for KeyedList`: the body does not abort; it builds a brand
new value with empty `active`, `buffer` and `old_elements_map` and no
template ("No clone for keyed list").  Following the panic-as-`none`
convention, a normal return is `some`; compare `impl Clone for
AnyComponentHandle` in src/dom/nodes.rs, which really does panic. -/
def KeyedList.clone (_kl : KeyedList ε) : Option (KeyedList ε) :=
  some { active := [], buffer := [], old_elements_map := [], template := none }

/-- `impl Clone for AnyComponentHandle` from src/dom/nodes.rs: an
unconditional panic ("Spair does not support mounting a component inside a
list item"). -/
def AnyComponentHandle.clone : Option Unit :=
  none

/-- `KeyedList::pre_update`: reserve map capacity (unobservable), resize
`buffer` to exactly `count` slots (truncate when shrinking, pad with `None`
when growing), then `std::mem::swap(&mut self.active, &mut self.buffer)`. -/
def KeyedList.pre_update (kl : KeyedList ε) (count : Nat) : KeyedList ε :=
  let buffer :=
    if count < kl.buffer.length then kl.buffer.take count
    else kl.buffer ++ List.replicate (count - kl.buffer.length) none
  { kl with active := buffer, buffer := kl.active }

/-! ### Concrete inputs used by witnesses and counterexamples -/

/-- A world whose component instance is alive but currently mutably
borrowed further up the stack. -/
def w_borrowed : CompWorld Nat Nat :=
  { uq := ⟨false, [9]⟩, alive := true, borrowed := true
    inst := { state := some 0, mount_status := MountStatus.Mounted } }

/-- A world whose component instance has been destroyed: the weak handle no
longer upgrades. -/
def w_dead : CompWorld Nat Nat :=
  { uq := ⟨false, []⟩, alive := false, borrowed := false
    inst := { state := some 0, mount_status := MountStatus.Mounted } }

/-- An element-updater state for an `Existing` element with an empty
attribute cache. -/
def u_existing : ElementUpdaterState :=
  { attributes := [], index := 0, status := ElementStatus.Existing, select_value := none }

/-- A non-empty keyed list: one active keyed element, a one-slot buffer. -/
def kl_nonempty : KeyedList Nat :=
  { active := [some { key := ListItemKey.U32 1, element := 11 }]
    buffer := [none], template := none, old_elements_map := [] }

/-! ### Helper lemmas -/

/-- `i_have_to_execute_update_queue` never changes the queued items, only
the flag. -/
theorem i_have_queue_eq (uq : UpdateQueue τ) :
    (i_have_to_execute_update_queue uq).2.queue = uq.queue := by
  cases uq with
  | mk flag q => cases flag <;> rfl

/-- The executable `f64_abs` agrees with the mathematical absolute value. -/
theorem f64_abs_eq_abs (x : Rat) : f64_abs x = |x| := by
  rcases lt_or_le x 0 with h | h
  · simp [f64_abs, h, abs_of_neg h]
  · simp [f64_abs, not_lt.mpr h, abs_of_nonneg h]

/-- Characterization of the five `check_*_attribute` functions through the
typed-value dispatch: first write pushes and reports a write, a matching
stored record compares via the per-type skip test, and a mismatched variant
panics. -/
theorem AttributeList.check_eq (l : List Attribute) (index : Nat) (v : AttrValue) :
    AttributeList.check l index v =
      match l[index]? with
      | none => some (true, l ++ [v.store])
      | some a =>
        if v.matchesStored a = true then
          if v.skips a = true then some (false, l)
          else some (true, l.set index v.store)
        else none := by
  cases hget : l[index]? with
  | none =>
    cases v <;>
      simp [AttributeList.check, AttributeList.check_bool_attribute,
        AttributeList.check_str_attribute, AttributeList.check_i32_attribute,
        AttributeList.check_u32_attribute, AttributeList.check_f64_attribute,
        hget, AttrValue.store]
  | some a =>
    cases v <;> cases a <;>
      simp [AttributeList.check, AttributeList.check_bool_attribute,
        AttributeList.check_str_attribute, AttributeList.check_i32_attribute,
        AttributeList.check_u32_attribute, AttributeList.check_f64_attribute,
        hget, AttrValue.store, AttrValue.matchesStored, AttrValue.skips]

/-- A freshly stored record always passes the skip test against its own
value (for f64 because the absolute difference is `0 < EPSILON`). -/
theorem AttrValue.skips_store (v : AttrValue) : v.skips v.store = true := by
  cases v <;> simp [AttrValue.skips, AttrValue.store, f64_abs, f64_EPSILON]

/-- A freshly stored record is the variant its own check expects. -/
theorem AttrValue.matchesStored_store (v : AttrValue) :
    v.matchesStored v.store = true := by
  cases v <;> rfl

/-- What one successful check leaves behind: the position now stores a
record that the same value will skip against, the cache grew by at most one
slot at the end, and positions before `index` are untouched. -/
theorem AttributeList.check_post (l : List Attribute) (index : Nat) (v : AttrValue)
    (r : Bool) (l₁ : List Attribute) (hidx : index ≤ l.length)
    (hchk : AttributeList.check l index v = some (r, l₁)) :
    index + 1 ≤ l₁.length ∧ l.length ≤ l₁.length ∧
      (∀ j, j < index → l₁[j]? = l[j]?) ∧
      ∃ a', l₁[index]? = some a' ∧ v.matchesStored a' = true ∧ v.skips a' = true := by
  rw [AttributeList.check_eq] at hchk
  cases hget : l[index]? with
  | none =>
    rw [hget] at hchk
    have hlen : l.length ≤ index := List.getElem?_eq_none_iff.mp hget
    have hEq : index = l.length := Nat.le_antisymm hidx hlen
    have hl₁ : l₁ = l ++ [v.store] := by
      simpa using congrArg (fun o => Option.map Prod.snd o) hchk.symm
    subst hl₁
    subst hEq
    refine ⟨by simp, by simp, ?_, v.store, ?_, v.matchesStored_store, v.skips_store⟩
    · intro j hj
      exact List.getElem?_append_left hj
    · simp [List.getElem?_concat_length l v.store]
  | some a =>
    rw [hget] at hchk
    have hchk₂ : (if v.matchesStored a = true then
        if v.skips a = true then some (false, l)
        else some (true, l.set index v.store)
      else none) = some (r, l₁) := hchk
    have hlt : index < l.length := by
      rcases List.getElem?_eq_some_iff.mp hget with ⟨h, _⟩
      exact h
    by_cases hm : v.matchesStored a = true
    · by_cases hs : v.skips a = true
      · rw [if_pos hm, if_pos hs] at hchk₂
        have hl₁ : l₁ = l := by
          simpa using congrArg (fun o => Option.map Prod.snd o) hchk₂.symm
        subst hl₁
        exact ⟨hlt, Nat.le_refl _, fun j _ => rfl, a, hget, hm, hs⟩
      · rw [if_pos hm, if_neg hs] at hchk₂
        have hl₁ : l₁ = l.set index v.store := by
          simpa using congrArg (fun o => Option.map Prod.snd o) hchk₂.symm
        subst hl₁
        refine ⟨by simpa using hlt, by simp, ?_, v.store, ?_,
          v.matchesStored_store, v.skips_store⟩
        · intro j hj
          rw [List.getElem?_set_ne (Nat.ne_of_gt hj)]
        · simpa using List.getElem?_set_self hlt
    · rw [if_neg hm] at hchk₂
      exact absurd hchk₂ (by simp)

/-- A value checked against the record its own first check left at the same
position reports no DOM write and leaves the cache unchanged. -/
theorem AttributeList.check_same (l : List Attribute) (index : Nat) (v : AttrValue)
    (a : Attribute) (hget : l[index]? = some a) (hm : v.matchesStored a = true)
    (hs : v.skips a = true) :
    AttributeList.check l index v = some (false, l) := by
  rw [AttributeList.check_eq, hget]
  show (if v.matchesStored a = true then
      if v.skips a = true then some (false, l)
      else some (true, l.set index v.store)
    else none) = some (false, l)
  rw [if_pos hm, if_pos hs]

/-- Second-pass lemma: re-running a successful sequence of checks against
the cache the first pass produced reports no DOM write anywhere and leaves
the cache unchanged. -/
theorem AttributeList.runChecks_again (vs : List AttrValue) :
    ∀ (l : List Attribute) (index : Nat) (rs : List Bool) (l' : List Attribute),
      index ≤ l.length →
      AttributeList.runChecks vs l index = some (rs, l') →
      AttributeList.runChecks vs l' index = some (List.replicate vs.length false, l') ∧
        l.length ≤ l'.length ∧ (∀ j, j < index → l'[j]? = l[j]?) := by
  induction vs with
  | nil =>
    intro l index rs l' _ h
    simp only [AttributeList.runChecks] at h
    obtain ⟨hrs, hl⟩ := Prod.mk.injEq .. ▸ Option.some.injEq .. ▸ h
    subst hl
    exact ⟨by simp [AttributeList.runChecks], Nat.le_refl _, fun j _ => rfl⟩
  | cons v vs ih =>
    intro l index rs l' hidx h
    simp only [AttributeList.runChecks] at h
    cases hchk : AttributeList.check l index v with
    | none => rw [hchk] at h; exact absurd h (by simp)
    | some p =>
      obtain ⟨r, l₁⟩ := p
      rw [hchk] at h
      have h₂ : (match AttributeList.runChecks vs l₁ (index + 1) with
          | none => none
          | some (rs, l₂) => some (r :: rs, l₂)) = some (rs, l') := h
      cases hrun : AttributeList.runChecks vs l₁ (index + 1) with
      | none => rw [hrun] at h₂; exact absurd h₂ (by simp)
      | some q =>
        obtain ⟨rs₁, l₂⟩ := q
        rw [hrun] at h₂
        have h₃ : some (r :: rs₁, l₂) = some (rs, l') := h₂
        have hl₂ : l₂ = l' := congrArg Prod.snd (Option.some.inj h₃)
        subst hl₂
        obtain ⟨h1, hlen₁, hpre, a', hstored, hm, hs⟩ :=
          AttributeList.check_post l index v r l₁ hidx hchk
        obtain ⟨ih1, ih2, ih3⟩ := ih l₁ (index + 1) rs₁ l₂ h1 hrun
        have hfidx : l₂[index]? = some a' := by
          rw [ih3 index (Nat.lt_succ_self index)]
          exact hstored
        have hchk' : AttributeList.check l₂ index v = some (false, l₂) :=
          AttributeList.check_same l₂ index v a' hfidx hm hs
        refine ⟨?_, Nat.le_trans hlen₁ ih2, ?_⟩
        · simp only [AttributeList.runChecks, hchk', ih1, List.length_cons,
            List.replicate_succ]
        · intro j hj
          rw [ih3 j (Nat.lt_succ_of_lt hj)]
          exact hpre j hj

/-- Drain with no enqueuing during the drain executes exactly the queued
items, in queue (FIFO) order. -/
theorem drainFuel_const_nil {τ : Type} :
    ∀ (fuel : Nat) (q : List τ), q.length ≤ fuel →
      drainFuel (fun _ => ([] : List τ)) fuel q = some q := by
  intro fuel
  induction fuel with
  | zero =>
    intro q hq
    cases q with
    | nil => rfl
    | cons f rest => simp at hq
  | succ n ihn =>
    intro q hq
    cases q with
    | nil => rfl
    | cons f rest =>
      have : rest.length ≤ n := by simpa using hq
      simp [drainFuel, ihn rest this]

/-! ### Claim theorems -/

/-- C1: when a state-update callback executes for a component instance that
is already exclusively (mutably) borrowed, `Comp::execute_callback` neither
blocks nor panics nor reports an error: it captures the callback and its
argument as a closure, pushes it onto the back of the process-wide FIFO
queue for later retry, and returns, leaving the component instance — in
particular its state — unchanged at that moment. -/
theorem execute_callback_defers_when_borrowed {σ A τ : Type}
    (reset : σ → σ) (exec : σ → A → σ) (queueTask : A → τ) (eff : τ → List τ)
    (fuel : Nat) (arg : A) (w : CompWorld σ τ)
    (halive : w.alive = true) (hborrowed : w.borrowed = true) :
    ∃ w', Comp.execute_callback reset exec queueTask eff fuel arg w = some w' ∧
      w'.inst = w.inst ∧ w'.alive = w.alive ∧ w'.borrowed = w.borrowed ∧
      w'.uq.queue = w.uq.queue ++ [queueTask arg] := by
  refine ⟨{ w with
      uq := callback_queue queueTask (i_have_to_execute_update_queue w.uq).2 arg },
    ?_, rfl, rfl, rfl, ?_⟩
  · simp [Comp.execute_callback, halive, hborrowed]
  · simp [callback_queue, update_component, UpdateQueue.add, i_have_queue_eq]

/-- Witness for C1 at a concrete borrowed world. -/
theorem execute_callback_defers_when_borrowed_witness :
    w_borrowed.alive = true ∧ w_borrowed.borrowed = true ∧
    ∃ w', Comp.execute_callback id (fun s (a : Nat) => s + a) id (fun _ => []) 1 3
        w_borrowed = some w' ∧
      w'.inst = w_borrowed.inst ∧ w'.alive = w_borrowed.alive ∧
      w'.borrowed = w_borrowed.borrowed ∧
      w'.uq.queue = w_borrowed.uq.queue ++ [id 3] :=
  ⟨rfl, rfl, execute_callback_defers_when_borrowed id (fun s a => s + a) id
    (fun _ => []) 1 3 w_borrowed rfl rfl⟩

/-- C2: the deferred-update queue is FIFO (`push_back` on enqueue,
`pop_front` on drain); exactly one concurrently-active call is the owner —
the first caller that finds the re-entrancy flag `false` sets it and is
told `true`, every later caller is told `false` and changes nothing; a
finished `execute` has drained the queue to empty and cleared the flag; a
drain with no enqueuing executes exactly the queued items in enqueue order;
and anything enqueued while an item drains executes after that item in the
same drain loop. -/
theorem update_queue_fifo_protocol (τ : Type) :
    (∀ (uq : UpdateQueue τ) (f : τ),
      (uq.add f).queue = uq.queue ++ [f] ∧
      (uq.add f).will_be_executed = uq.will_be_executed) ∧
    (∀ (b : Bool) (f : τ) (rest : List τ),
      UpdateQueue.take ⟨b, f :: rest⟩ = (some f, ⟨b, rest⟩) ∧
      UpdateQueue.take (⟨b, []⟩ : UpdateQueue τ) = (none, ⟨b, []⟩)) ∧
    (∀ uq : UpdateQueue τ,
      (i_have_to_execute_update_queue uq).1 = !uq.will_be_executed ∧
      (i_have_to_execute_update_queue uq).2.will_be_executed = true ∧
      (i_have_to_execute_update_queue uq).2.queue = uq.queue ∧
      (i_have_to_execute_update_queue (i_have_to_execute_update_queue uq).2).1 = false ∧
      (i_have_to_execute_update_queue (i_have_to_execute_update_queue uq).2).2 =
        (i_have_to_execute_update_queue uq).2) ∧
    (∀ (eff : τ → List τ) (fuel : Nat) (uq : UpdateQueue τ) (ex : List τ)
      (uq' : UpdateQueue τ), uq.execute eff fuel = some (ex, uq') →
      uq'.queue = [] ∧ uq'.will_be_executed = false) ∧
    (∀ (fuel : Nat) (q : List τ), q.length ≤ fuel →
      drainFuel (fun _ => ([] : List τ)) fuel q = some q) ∧
    (∀ (eff : τ → List τ) (fuel : Nat) (f : τ) (rest : List τ),
      drainFuel eff (fuel + 1) (f :: rest) =
        (drainFuel eff fuel (rest ++ eff f)).map (fun ex => f :: ex)) := by
  refine ⟨?_, ?_, ?_, ?_, drainFuel_const_nil, ?_⟩
  · intro uq f
    exact ⟨rfl, rfl⟩
  · intro b f rest
    exact ⟨rfl, rfl⟩
  · intro uq
    cases uq with
    | mk flag q => cases flag <;> exact ⟨rfl, rfl, rfl, rfl, rfl⟩
  · intro eff fuel uq ex uq' h
    unfold UpdateQueue.execute at h
    cases hd : drainFuel eff fuel uq.queue with
    | none => rw [hd] at h; exact absurd h (by simp)
    | some e =>
      rw [hd] at h
      have h₂ : some (e, (⟨false, []⟩ : UpdateQueue τ)) = some (ex, uq') := h
      have : (⟨false, []⟩ : UpdateQueue τ) = uq' :=
        congrArg Prod.snd (Option.some.inj h₂)
      rw [← this]
      exact ⟨rfl, rfl⟩
  · intro eff fuel f rest
    rfl

/-- Witness for C2: a finished drain (with one enqueue-during-drain) ends
with an empty queue and a cleared flag, and a no-enqueue drain preserves
FIFO order. -/
theorem update_queue_fifo_protocol_witness :
    ((⟨false, ([] : List Nat)⟩ : UpdateQueue Nat).queue = [] ∧
      (⟨false, ([] : List Nat)⟩ : UpdateQueue Nat).will_be_executed = false) ∧
    drainFuel (fun _ => ([] : List Nat)) 2 [4, 5] = some [4, 5] :=
  ⟨(update_queue_fifo_protocol Nat).2.2.2.1 (fun n => if n = 0 then [3] else []) 3
      ⟨true, [0, 1]⟩ [0, 1, 3] ⟨false, []⟩ (by decide),
    (update_queue_fifo_protocol Nat).2.2.2.2.1 2 [4, 5] (by decide)⟩

/-- C3 counterexample: executing an update for a component instance whose
backing storage has been destroyed (the weak handle no longer upgrades) is
not a silent no-op — `Comp::execute_callback` hits
`expect_throw("Expect the component instance alive when updating - ...")`
and panics (modelled as `none`). -/
theorem execute_callback_panics_on_dead_counterexample :
    w_dead.alive = false ∧
    Comp.execute_callback id (fun s (a : Nat) => s + a) id (fun _ => []) 1 3 w_dead =
      none :=
  ⟨rfl, rfl⟩

/-- C3 amended: if an update is executed for a component instance whose
backing storage has been destroyed, `Comp::execute_callback` panics via
`expect_throw` (it does not run the update and does not touch the queue's
items, but it is a loud failure, not a silent drop); only the
mount-status-on-drop path, `Comp::set_mount_status_to_unmounted`, treats a
dead handle as a silent no-op. -/
theorem execute_callback_dead_target_amended {σ A τ : Type}
    (reset : σ → σ) (exec : σ → A → σ) (queueTask : A → τ) (eff : τ → List τ)
    (fuel : Nat) (arg : A) (w : CompWorld σ τ) (hdead : w.alive = false) :
    Comp.execute_callback reset exec queueTask eff fuel arg w = none ∧
    Comp.set_mount_status_to_unmounted w = w := by
  constructor
  · simp [Comp.execute_callback, hdead]
  · simp [Comp.set_mount_status_to_unmounted, hdead]

/-- Witness for the amended C3 at a concrete dead world. -/
theorem execute_callback_dead_target_amended_witness :
    Comp.execute_callback (fun s => s) (fun s (a : Nat) => s * a) id (fun _ => [])
        2 7 w_dead = none ∧
    Comp.set_mount_status_to_unmounted w_dead = w_dead :=
  execute_callback_dead_target_amended (fun s => s) (fun s a => s * a) id
    (fun _ => []) 2 7 w_dead rfl

/-- C4: a value-attribute check beyond the cache's length stores the value
and always reports a DOM write; within range, a stored record equal to the
new value (exact equality for bool, i32, u32, string; absolute difference
below machine epsilon for f64) reports no write, and an unequal one is
replaced with a write reported; consequently re-running the same sequence
of checks from position 0 reports no write anywhere on the second pass. -/
theorem attribute_check_positional_diffing :
    (∀ (l : List Attribute) (index : Nat) (v : AttrValue), l.length ≤ index →
      AttributeList.check l index v = some (true, l ++ [v.store])) ∧
    (∀ (l : List Attribute) (index : Nat) (v : AttrValue) (a : Attribute),
      l[index]? = some a → v.matchesStored a = true → v.skips a = true →
      AttributeList.check l index v = some (false, l)) ∧
    (∀ (l : List Attribute) (index : Nat) (v : AttrValue) (a : Attribute),
      l[index]? = some a → v.matchesStored a = true → v.skips a = false →
      AttributeList.check l index v = some (true, l.set index v.store)) ∧
    (∀ (vs : List AttrValue) (l l' : List Attribute) (rs : List Bool),
      AttributeList.runChecks vs l 0 = some (rs, l') →
      AttributeList.runChecks vs l' 0 = some (List.replicate vs.length false, l')) := by
  refine ⟨?_, ?_, ?_, ?_⟩
  · intro l index v h
    rw [AttributeList.check_eq, List.getElem?_eq_none h]
  · intro l index v a hget hm hs
    exact AttributeList.check_same l index v a hget hm hs
  · intro l index v a hget hm hs
    rw [AttributeList.check_eq, hget]
    show (if v.matchesStored a = true then
        if v.skips a = true then some (false, l)
        else some (true, l.set index v.store)
      else none) = some (true, l.set index v.store)
    rw [if_pos hm, if_neg (by simp [hs])]
  · intro vs l l' rs h
    exact (AttributeList.runChecks_again vs l 0 rs l' (Nat.zero_le _) h).1

/-- Witness for C4: first write, skip, replace and an all-skip second pass,
each at concrete inputs. -/
theorem attribute_check_positional_diffing_witness :
    AttributeList.check [] 0 (AttrValue.VBool true) =
      some (true, [Attribute.Bool true]) ∧
    AttributeList.check [Attribute.Bool true] 0 (AttrValue.VBool true) =
      some (false, [Attribute.Bool true]) ∧
    AttributeList.check [Attribute.Bool true] 0 (AttrValue.VBool false) =
      some (true, [Attribute.Bool false]) ∧
    AttributeList.runChecks
        [AttrValue.VBool true, AttrValue.VStr "a", AttrValue.VI32 (-2)]
        [Attribute.Bool true, Attribute.String "a", Attribute.I32 (-2)] 0 =
      some (List.replicate 3 false,
        [Attribute.Bool true, Attribute.String "a", Attribute.I32 (-2)]) :=
  ⟨attribute_check_positional_diffing.1 [] 0 (AttrValue.VBool true) (by decide),
    attribute_check_positional_diffing.2.1 [Attribute.Bool true] 0
      (AttrValue.VBool true) (Attribute.Bool true) rfl rfl (by decide),
    attribute_check_positional_diffing.2.2.1 [Attribute.Bool true] 0
      (AttrValue.VBool false) (Attribute.Bool true) rfl rfl (by decide),
    attribute_check_positional_diffing.2.2.2
      [AttrValue.VBool true, AttrValue.VStr "a", AttrValue.VI32 (-2)]
      [Attribute.Bool true, Attribute.String "a", Attribute.I32 (-2)]
      [Attribute.Bool true, Attribute.String "a", Attribute.I32 (-2)]
      [false, false, false] (by decide)⟩

/-- C9: reading an attribute cache slot whose stored record is a different
variant than the check expects is fatal: every `check_*_attribute` panics
(modelled `none`) instead of returning or coercing, for every index within
the cache and every mismatched stored variant. -/
theorem attribute_check_mismatched_variant_panics
    (l : List Attribute) (index : Nat) (v : AttrValue) (a : Attribute)
    (hget : l[index]? = some a) (hmis : v.matchesStored a = false) :
    AttributeList.check l index v = none := by
  rw [AttributeList.check_eq, hget]
  show (if v.matchesStored a = true then
      if v.skips a = true then some (false, l)
      else some (true, l.set index v.store)
    else none) = none
  rw [if_neg (by simp [hmis])]

/-- Witness for C9: the bool check finding a stored string record panics. -/
theorem attribute_check_mismatched_variant_panics_witness :
    AttributeList.check [Attribute.String "x"] 0 (AttrValue.VBool true) = none :=
  attribute_check_mismatched_variant_panics [Attribute.String "x"] 0
    (AttrValue.VBool true) (Attribute.String "x") rfl rfl

/-- C5 counterexample: on the dynamic attributes path
(`impl sealed::AttributeSetter for Attributes`), an `Existing` element still
re-binds its listeners — `require_set_listener` reports `true` and the event
method stores the listener — contradicting "on an `Existing` element the
listener binding is skipped". -/
theorem attributes_rebind_listener_on_existing_counterexample :
    u_existing.status = ElementStatus.Existing ∧
    (Attributes.require_set_listener u_existing).1 = true ∧
    Attributes.on_event 5 u_existing =
      { attributes := [Attribute.EventListener 5], index := 1
        status := ElementStatus.Existing, select_value := none } :=
  ⟨rfl, rfl, rfl⟩

/-- C5 amended: on the static attributes path, listeners are re-bound
exactly when the element's status is not `Existing` — `JustCreated` and
`JustCloned` elements bind and store every declared listener at its cache
position, while an `Existing` element skips the binding and still advances
the position index; on the dynamic attributes path (`Attributes`), however,
`require_set_listener` always reports `true`, so those listeners are
re-bound on every pass regardless of status. -/
theorem listener_rebinding_amended (u : ElementUpdaterState) (listener : Nat) :
    (StaticAttributes.require_set_listener { u with status := ElementStatus.Existing } =
      (false, { u with status := ElementStatus.Existing, index := u.index + 1 })) ∧
    (StaticAttributes.require_set_listener { u with status := ElementStatus.JustCreated } =
      (true, { u with status := ElementStatus.JustCreated })) ∧
    (StaticAttributes.require_set_listener { u with status := ElementStatus.JustCloned } =
      (true, { u with status := ElementStatus.JustCloned })) ∧
    (StaticAttributes.on_event listener { u with status := ElementStatus.Existing } =
      { u with status := ElementStatus.Existing, index := u.index + 1 }) ∧
    (StaticAttributes.on_event listener { u with status := ElementStatus.JustCreated } =
      { u with status := ElementStatus.JustCreated
               attributes := AttributeList.store_listener u.attributes u.index listener
               index := u.index + 1 }) ∧
    (StaticAttributes.on_event listener { u with status := ElementStatus.JustCloned } =
      { u with status := ElementStatus.JustCloned
               attributes := AttributeList.store_listener u.attributes u.index listener
               index := u.index + 1 }) ∧
    (Attributes.require_set_listener u = (true, u)) ∧
    (Attributes.on_event listener u =
      { u with attributes := AttributeList.store_listener u.attributes u.index listener
               index := u.index + 1 }) := by
  refine ⟨?_, rfl, ?_, ?_, rfl, ?_, rfl, rfl⟩ <;>
    simp [StaticAttributes.require_set_listener, StaticAttributes.on_event,
      StaticAttributes.store_listener]

/-- C10: on the static attributes path every value-attribute check (bool,
str, i32, u32, f64) reports that the DOM must be written exactly when the
element's status is `JustCreated`, and stores nothing (the updater state,
including the attribute cache and the position, is untouched); in
particular a `JustCloned` element never re-applies static attribute values
even though it does re-bind its listeners. -/
theorem static_attribute_checks_spec (u : ElementUpdaterState) (b : Bool)
    (s : String) (n : Int) (m : Nat) (x : Rat) :
    ((StaticAttributes.check_bool_attribute u b).1 = true ↔
      u.status = ElementStatus.JustCreated) ∧
    (StaticAttributes.check_bool_attribute u b).2 = u ∧
    ((StaticAttributes.check_str_attribute u s).1 = true ↔
      u.status = ElementStatus.JustCreated) ∧
    (StaticAttributes.check_str_attribute u s).2 = u ∧
    ((StaticAttributes.check_i32_attribute u n).1 = true ↔
      u.status = ElementStatus.JustCreated) ∧
    (StaticAttributes.check_i32_attribute u n).2 = u ∧
    ((StaticAttributes.check_u32_attribute u m).1 = true ↔
      u.status = ElementStatus.JustCreated) ∧
    (StaticAttributes.check_u32_attribute u m).2 = u ∧
    ((StaticAttributes.check_f64_attribute u x).1 = true ↔
      u.status = ElementStatus.JustCreated) ∧
    (StaticAttributes.check_f64_attribute u x).2 = u ∧
    ((StaticAttributes.check_bool_attribute
        { u with status := ElementStatus.JustCloned } b).1 = false) ∧
    (StaticAttributes.require_set_listener
        { u with status := ElementStatus.JustCloned } =
      (true, { u with status := ElementStatus.JustCloned })) := by
  refine ⟨?_, rfl, ?_, rfl, ?_, rfl, ?_, rfl, ?_, rfl, ?_, rfl⟩ <;>
    simp [StaticAttributes.check_bool_attribute, StaticAttributes.check_str_attribute,
      StaticAttributes.check_i32_attribute, StaticAttributes.check_u32_attribute,
      StaticAttributes.check_f64_attribute]

/-- C6 counterexample: cloning a keyed list does not abort — on a non-empty
keyed list, `Clone::clone` returns normally (`some`), yielding the empty
keyed list rather than failing fast. -/
theorem keyed_list_clone_returns_counterexample :
    KeyedList.clone kl_nonempty =
      some { active := [], buffer := [], template := none, old_elements_map := [] } ∧
    (KeyedList.clone kl_nonempty).isSome = true :=
  ⟨rfl, rfl⟩

/-- C6 amended: duplicating a keyed list does not produce a usable copy —
`Clone::clone` silently discards all state, returning a fresh keyed list
with empty `active`, `buffer` and `old_elements_map` and no template — but
it does not abort; it returns normally (by contrast,
`Clone for AnyComponentHandle` in src/dom/nodes.rs does panic). -/
theorem keyed_list_clone_amended {ε : Type} (kl : KeyedList ε) :
    KeyedList.clone kl =
      some { active := [], buffer := [], template := none, old_elements_map := [] } ∧
    AnyComponentHandle.clone = none :=
  ⟨rfl, rfl⟩

/-- C7: starting from a buffer whose slots were all drained by the previous
pass (the state `pre_update` is always called in: the map-building step
takes every buffered element out, and the initial buffer is empty), after
`pre_update(count)` the freshly resized sequence has exactly `count` slots,
all empty, and `active`/`buffer` have been swapped: the sequence now named
`active` is that `count`-slot target array and the sequence now named
`buffer` holds the previous render's elements. -/
theorem keyed_list_pre_update_spec {ε : Type} (kl : KeyedList ε) (count : Nat)
    (hdrained : ∀ x ∈ kl.buffer, x = none) :
    (kl.pre_update count).active.length = count ∧
    (∀ x ∈ (kl.pre_update count).active, x = none) ∧
    (kl.pre_update count).buffer = kl.active ∧
    (kl.pre_update count).template = kl.template ∧
    (kl.pre_update count).old_elements_map = kl.old_elements_map := by
  unfold KeyedList.pre_update
  by_cases h : count < kl.buffer.length
  · refine ⟨?_, ?_, rfl, rfl, rfl⟩
    · simp only [if_pos h, List.length_take]
      omega
    · intro x hx
      simp only [if_pos h] at hx
      exact hdrained x (List.mem_of_mem_take hx)
  · refine ⟨?_, ?_, rfl, rfl, rfl⟩
    · simp only [if_neg h, List.length_append, List.length_replicate]
      omega
    · intro x hx
      simp only [if_neg h, List.mem_append] at hx
      rcases hx with hx | hx
      · exact hdrained x hx
      · exact List.eq_of_mem_replicate hx

/-- Witness for C7: resizing a drained one-slot buffer to one slot. -/
theorem keyed_list_pre_update_spec_witness :
    (kl_nonempty.pre_update 1).active.length = 1 ∧
    (∀ x ∈ (kl_nonempty.pre_update 1).active, x = none) ∧
    (kl_nonempty.pre_update 1).buffer = kl_nonempty.active ∧
    (kl_nonempty.pre_update 1).template = kl_nonempty.template ∧
    (kl_nonempty.pre_update 1).old_elements_map = kl_nonempty.old_elements_map :=
  keyed_list_pre_update_spec kl_nonempty 1 (by decide)

/-- C8: selecting the arm index that is already active on a grouped
fragment is a no-op returning `Existing` with the nested node store
untouched; selecting a different index (or selecting when no index is
active) clears the nested node store, records the new index as active, and
returns `JustCreated`. -/
theorem grouped_nodes_set_active_index_spec {ν : Type} (gn : GroupedNodes ν)
    (index : Nat) :
    (gn.active_index = some index →
      gn.set_active_index index = (ElementStatus.Existing, gn)) ∧
    (gn.active_index ≠ some index →
      gn.set_active_index index =
        (ElementStatus.JustCreated,
          { gn with nodes := [], active_index := some index })) := by
  constructor
  · intro h
    simp [GroupedNodes.set_active_index, h]
  · intro h
    simp [GroupedNodes.set_active_index, Ne.symm h]

/-- Witness for C8: re-selecting arm 2 is a no-op; switching to arm 3 (and
selecting on a fragment with no active arm) re-creates. -/
theorem grouped_nodes_set_active_index_spec_witness :
    ((⟨some 2, [7]⟩ : GroupedNodes Nat).set_active_index 2 =
      (ElementStatus.Existing, ⟨some 2, [7]⟩)) ∧
    ((⟨some 2, [7]⟩ : GroupedNodes Nat).set_active_index 3 =
      (ElementStatus.JustCreated, ⟨some 3, []⟩)) ∧
    ((⟨none, [7]⟩ : GroupedNodes Nat).set_active_index 0 =
      (ElementStatus.JustCreated, ⟨some 0, []⟩)) :=
  ⟨(grouped_nodes_set_active_index_spec ⟨some 2, [7]⟩ 2).1 rfl,
    (grouped_nodes_set_active_index_spec ⟨some 2, [7]⟩ 3).2 (by decide),
    (grouped_nodes_set_active_index_spec ⟨none, [7]⟩ 0).2 (by decide)⟩

end Spair
